import Mathlib

/-!
Shallow embedding of the `flavor_of_the_day` Home Assistant integration
(`custom_components/flavor_of_the_day/`): the data model (`models.py`),
the exception taxonomy (`exceptions.py`), the shared HTTP retry wrapper
(`providers/base.py`), the vendor adapters (`providers/culvers.py`,
`providers/kopps.py`, `providers/goodberrys.py`, `providers/oscars.py`,
`providers/leducs.py`) and the update coordinator (`coordinator.py`),
together with theorems settling the specification claims.

Modelling conventions:
- Python exceptions are a class tag (`ExcClass`, mirroring the class
  hierarchy of `exceptions.py` plus the relevant builtin / library
  classes) together with the message string (`Raised`); fallible Python
  code is `Except Raised α`.
- An HTTP `session.get` is an input of type `Fetch π`: either the
  transport raised `aiohttp.ClientError`, or a status code plus the
  parsed view `π` of the body that the adapter's extraction code
  consumes (BeautifulSoup is abstracted to the lists of candidate texts
  each scanning loop iterates over, in iteration order).
- Ambient wall-clock time (`datetime.now()` / `dt_util.now()`) is an
  explicit `PyDateTime` argument.
-/

namespace FlavorOfTheDay

/-! ### Python string primitives used by the adapters -/

/-- `needle` occurs as a contiguous run inside `hay` (on character
lists; the empty needle always occurs, as in Python). -/
def containsSub (needle : List Char) : List Char → Bool
  | [] => List.isPrefixOf needle []
  | c :: t => List.isPrefixOf needle (c :: t) || containsSub needle t

/-- Python `needle in hay` substring test (`"" in s` is `True`). -/
def pyContains (hay needle : String) : Bool :=
  containsSub needle.data hay.data

/-- Python `str.lower()` (the source data is ASCII). -/
def pyLower (s : String) : String := String.mk (s.data.map Char.toLower)

/-- Python `str.upper()` (the source data is ASCII). -/
def pyUpper (s : String) : String := String.mk (s.data.map Char.toUpper)

/-- Python `str.startswith(p)`. -/
def pyStartsWith (s p : String) : Bool := List.isPrefixOf p.data s.data

/-- Python `str.strip()`: drop leading and trailing whitespace. -/
def pyStrip (s : String) : String :=
  String.mk
    (((s.data.dropWhile Char.isWhitespace).reverse.dropWhile
      Char.isWhitespace).reverse)

/-- Accumulator loop for Python `str.split()`. -/
def splitWsAux : List Char → List Char → List String
  | [], acc => if acc.isEmpty then [] else [String.mk acc.reverse]
  | c :: t, acc =>
    if c.isWhitespace then
      if acc.isEmpty then splitWsAux t []
      else String.mk acc.reverse :: splitWsAux t []
    else splitWsAux t (c :: acc)

/-- Python `str.split()` with no argument: split on whitespace runs,
dropping empty pieces. -/
def pySplitWs (s : String) : List String :=
  splitWsAux s.data []

/-- Python `word[0].isupper()` on a non-empty word (`False` on the
empty string, which `pySplitWs` never produces). -/
def pyFirstIsUpper (w : String) : Bool :=
  match w.data with
  | [] => false
  | c :: _ => c.isUpper

/-! ### Exception taxonomy (`exceptions.py`, plus builtin/library classes) -/

/-- Exception classes: the sealed hierarchy of `exceptions.py` together
with the builtin and library exception classes the adapters interact
with. `pyException` is Python's `Exception`. -/
inductive ExcClass where
  | pyException
  | flavorProviderError
  | flavorProviderCommunicationError
  | flavorProviderAuthenticationError
  | flavorProviderTimeoutError
  | locationNotFoundError
  | flavorNotAvailableError
  | rateLimitError
  | networkError
  | flavorProviderConfigError
  | clientError          -- aiohttp.ClientError
  | builtinTimeoutError  -- builtin TimeoutError
  | typeError            -- builtin TypeError
  | keyError             -- builtin KeyError
  | jsonDecodeError      -- json.JSONDecodeError
deriving DecidableEq, Repr, BEq, Fintype

/-- Immediate superclass, exactly as declared in `exceptions.py`;
builtin/library classes are direct children of `Exception` here (their
true intermediate bases are irrelevant to this code base). -/
def parentClass : ExcClass → Option ExcClass
  | .pyException => none
  | .flavorProviderError => some .pyException
  | .flavorProviderCommunicationError => some .flavorProviderError
  | .flavorProviderAuthenticationError => some .flavorProviderError
  | .flavorProviderTimeoutError => some .flavorProviderCommunicationError
  | .locationNotFoundError => some .flavorProviderError
  | .flavorNotAvailableError => some .flavorProviderError
  | .rateLimitError => some .flavorProviderCommunicationError
  | .networkError => some .flavorProviderCommunicationError
  | .flavorProviderConfigError => some .flavorProviderError
  | .clientError => some .pyException
  | .builtinTimeoutError => some .pyException
  | .typeError => some .pyException
  | .keyError => some .pyException
  | .jsonDecodeError => some .pyException

/-- The class and its superclasses, chased through `parentClass` with
fuel (the hierarchy has depth at most 4). -/
def ancestorsAux : Nat → ExcClass → List ExcClass
  | 0, c => [c]
  | n + 1, c =>
    c :: (match parentClass c with
          | none => []
          | some p => ancestorsAux n p)

/-- Python `isinstance(e, target)` on exception classes. -/
def isInstance (c target : ExcClass) : Bool :=
  (ancestorsAux 8 c).contains target

/-- A raised Python exception: its class and its message. -/
structure Raised where
  cls : ExcClass
  msg : String
deriving DecidableEq, Repr

/-! ### Data model (`models.py`) -/

/-- A Python `datetime.datetime` value. -/
structure PyDateTime where
  year : Nat
  month : Nat
  day : Nat
  hour : Nat
  minute : Nat
  second : Nat
  microsecond : Nat
deriving DecidableEq, Repr

/-- `n` rendered in decimal, left-padded with zeros to width `w`. -/
def padZeros (w n : Nat) : String :=
  let s := toString n
  String.mk (List.replicate (w - s.length) '0') ++ s

/-- Python `datetime.isoformat()`: `YYYY-MM-DDTHH:MM:SS`, with a
`.ffffff` suffix only when the microsecond field is nonzero. -/
def PyDateTime.isoformat (d : PyDateTime) : String :=
  padZeros 4 d.year ++ "-" ++ padZeros 2 d.month ++ "-" ++ padZeros 2 d.day ++
    "T" ++ padZeros 2 d.hour ++ ":" ++ padZeros 2 d.minute ++ ":" ++
    padZeros 2 d.second ++
    (if d.microsecond = 0 then "" else "." ++ padZeros 6 d.microsecond)

/-- `FlavorInfo` dataclass (`models.py` lines 10-21). Python dicts of
strings are modelled as association lists. -/
structure FlavorInfo where
  name : String
  description : Option String := none
  ingredients : Option (List String) := none
  allergens : Option (List String) := none
  image_url : Option String := none
  available_date : Option PyDateTime := none
  price : Option String := none
  nutrition_info : Option (List (String × String)) := none
deriving DecidableEq, Repr

/-- `LocationInfo` dataclass (`models.py` lines 39-53). -/
structure LocationInfo where
  store_id : String
  name : String
  address : String
  city : String
  state : String
  zip_code : Option String := none
  phone : Option String := none
  hours : Option (List (String × String)) := none
  website_url : Option String := none
  latitude : Option ℚ := none
  longitude : Option ℚ := none
deriving DecidableEq, Repr

/-- A value in the attribute mapping produced by `FlavorInfo.to_dict`. -/
inductive AttrValue where
  | vNone
  | vStr (s : String)
  | vStrList (xs : List String)
  | vStrMap (m : List (String × String))
deriving DecidableEq, Repr

/-- `Option String` as a dict value (`None` vs a string). -/
def optStr : Option String → AttrValue
  | none => .vNone
  | some s => .vStr s

/-- `Option (List String)` as a dict value. -/
def optStrList : Option (List String) → AttrValue
  | none => .vNone
  | some xs => .vStrList xs

/-- `Option` string-map as a dict value. -/
def optStrMap : Option (List (String × String)) → AttrValue
  | none => .vNone
  | some m => .vStrMap m

/-- `FlavorInfo.to_dict` (`models.py` lines 23-36): the HA attribute
mapping, with `available_date` rendered by `isoformat()` when present. -/
def FlavorInfo.to_dict (f : FlavorInfo) : List (String × AttrValue) :=
  [("name", .vStr f.name),
   ("description", optStr f.description),
   ("ingredients", optStrList f.ingredients),
   ("allergens", optStrList f.allergens),
   ("image_url", optStr f.image_url),
   ("available_date",
     match f.available_date with
     | some d => .vStr d.isoformat
     | none => .vNone),
   ("price", optStr f.price),
   ("nutrition_info", optStrMap f.nutrition_info)]

/-! ### HTTP retry wrapper (`providers/base.py`, `_make_request_with_retry`) -/

/-- Outcome of one invocation of the wrapped `request_func`. Transport
errors (`TimeoutError`, `aiohttp.ClientError`) carry a tag identifying
the concrete exception object, so "re-raised unchanged" is expressible;
`raiseOther` is any non-transport exception. -/
inductive ReqOutcome (α : Type) where
  | ok (a : α)
  | raiseTimeout (e : Nat)
  | raiseClientError (e : Nat)
  | raiseOther (e : Nat)
deriving DecidableEq, Repr

/-- The invocation raised a transport-level error (the two `except`
clauses that trigger a retry in `_make_request_with_retry`). -/
def ReqOutcome.isTransport {α : Type} : ReqOutcome α → Bool
  | .raiseTimeout _ => true
  | .raiseClientError _ => true
  | _ => false

/-- What `_make_request_with_retry` itself does: return the function's
value, or re-raise an exception. `fellThrough` models the
`return None` after the `for` loop (reachable only with an empty
`range`, i.e. never for `max_retries + 1 ≥ 1` iterations). -/
inductive RetryResult (α : Type) where
  | success (a : α)
  | raisedTimeout (e : Nat)
  | raisedClientError (e : Nat)
  | raisedOther (e : Nat)
  | fellThrough
deriving DecidableEq, Repr

/-- The re-raise of a request outcome, unchanged. -/
def raisedOf {α : Type} : ReqOutcome α → RetryResult α
  | .ok a => .success a
  | .raiseTimeout e => .raisedTimeout e
  | .raiseClientError e => .raisedClientError e
  | .raiseOther e => .raisedOther e

/-- Trace of one run of the wrapper: its result, how many times the
request function was invoked, and the backoff delays slept (in order,
each `retry_delay * (attempt + 1)` seconds per the source). -/
structure RetryTrace (α : Type) where
  result : RetryResult α
  calls : Nat
  delays : List Nat
deriving Repr

/-- The `for attempt in range(max_retries + 1)` loop of
`_make_request_with_retry` (`providers/base.py` lines 56-103), from
iteration `attempt` with `remaining` iterations left. The request
function is modelled as a map from the invocation index (= `attempt`,
the number of prior invocations) to that invocation's outcome; the
`_rate_limit()` call before each attempt cannot raise and is not
traced here. -/
def retryLoop {α : Type} (f : Nat → ReqOutcome α) (maxRetries retryDelay : Nat) :
    Nat → Nat → RetryTrace α
  | _, 0 => ⟨.fellThrough, 0, []⟩
  | attempt, remaining + 1 =>
    match f attempt with
    | .ok a => ⟨.success a, 1, []⟩
    | .raiseTimeout e =>
      if attempt < maxRetries then
        let t := retryLoop f maxRetries retryDelay (attempt + 1) remaining
        ⟨t.result, t.calls + 1, retryDelay * (attempt + 1) :: t.delays⟩
      else ⟨.raisedTimeout e, 1, []⟩
    | .raiseClientError e =>
      if attempt < maxRetries then
        let t := retryLoop f maxRetries retryDelay (attempt + 1) remaining
        ⟨t.result, t.calls + 1, retryDelay * (attempt + 1) :: t.delays⟩
      else ⟨.raisedClientError e, 1, []⟩
    | .raiseOther e => ⟨.raisedOther e, 1, []⟩

/-- `BaseFlavorProvider._make_request_with_retry`: the loop started at
attempt 0 with `max_retries + 1` iterations. -/
def makeRequestWithRetry {α : Type} (f : Nat → ReqOutcome α)
    (maxRetries retryDelay : Nat) : RetryTrace α :=
  retryLoop f maxRetries retryDelay 0 (maxRetries + 1)

/-! ### HTTP fetch model -/

/-- Outcome of an `async with self.session.get(url)` block: either the
transport raised `aiohttp.ClientError`, or a response with a status
code and the adapter-specific parsed view `π` of the body. -/
inductive Fetch (π : Type) where
  | transportErr
  | status (code : Nat) (page : π)

/-- The flavor name of a successful adapter result (`none` on error). -/
def outcomeName (r : Except Raised FlavorInfo) : Option String :=
  match r with
  | .ok f => some f.name
  | .error _ => none

/-- The exception class of a failed adapter result (`none` on success). -/
def outcomeErrCls (r : Except Raised FlavorInfo) : Option ExcClass :=
  match r with
  | .ok _ => none
  | .error e => some e.cls

/-- Every failure of `r` has exception class `c`. -/
def failsOnlyWith (r : Except Raised FlavorInfo) (c : ExcClass) : Prop :=
  match r with
  | .ok _ => True
  | .error e => e.cls = c

/-! ### Culver's adapter (`providers/culvers.py`) -/

/-- One record of `restaurantDetails["flavors"]` as read by
`_extract_flavor_from_restaurant_page`; each field is accessed with
`.get(key, default)`, so missing keys are the defaults. -/
structure CulversFlavor where
  name : String
  description : String
  ingredients : String
  calories : Option String
  allergens : List String
deriving DecidableEq, Repr

/-- The parse/navigation outcome for the `__NEXT_DATA__` JSON payload:
`json.loads` fails (`json.JSONDecodeError`), the fixed key path
`props.pageProps.page.customData.restaurantDetails` is missing
(`KeyError`), or the restaurant details with their `flavors` list. -/
inductive CulversNextData where
  | malformed
  | pathMissing
  | details (flavors : List CulversFlavor)

/-- Parsed view of a Culver's restaurant page: the `__NEXT_DATA__`
script tag's payload, or `none` when the tag is absent or has no
string content. -/
structure CulversRestaurantPage where
  nextData : Option CulversNextData

/-- The keyword-argument names of `models.py`'s `FlavorInfo` dataclass
constructor. -/
def flavorInfoFieldNames : List String :=
  ["name", "description", "ingredients", "allergens", "image_url",
   "available_date", "price", "nutrition_info"]

/-- The keyword arguments `_extract_flavor_from_restaurant_page` passes
to `FlavorInfo(...)` (`culvers.py` lines 705-712). -/
def culversExtractCtorKwargs : List String :=
  ["name", "description", "ingredients", "available_date", "calories",
   "allergens"]

/-- Result of a Python dataclass constructor call: the instance, or the
`TypeError` CPython raises on an unexpected keyword argument. -/
inductive CtorAttempt where
  | built (f : FlavorInfo)
  | typeErrorUnexpectedKwarg (k : String)
deriving DecidableEq, Repr

/-- The `FlavorInfo(...)` call at `culvers.py` lines 705-712: CPython
raises `TypeError` at the first keyword argument that is not a
parameter of `FlavorInfo.__init__`. The `built` branch is unreachable
(`"calories"` is not a field), so its payload carries only the name. -/
def buildCulversFlavorInfo (cf : CulversFlavor) : CtorAttempt :=
  match culversExtractCtorKwargs.find? (fun k => !flavorInfoFieldNames.contains k) with
  | some k => .typeErrorUnexpectedKwarg k
  | none => .built { name := cf.name }

/-- `CulversProvider._extract_flavor_from_restaurant_page` (`culvers.py`
lines 661-720). A missing tag, a `json.JSONDecodeError` or a `KeyError`
hit the inner `except (json.JSONDecodeError, KeyError)` handler; an
empty `flavors` list or empty name returns `None`; the `TypeError` from
the constructor call escapes the inner handler and is swallowed by the
outer `except Exception` into `None`. -/
def culversExtractFlavorFromRestaurantPage (page : CulversRestaurantPage) :
    Option FlavorInfo :=
  match page.nextData with
  | none => none
  | some .malformed => none
  | some .pathMissing => none
  | some (.details flavors) =>
    match flavors with
    | [] => none
    | cf :: _ =>
      if cf.name = "" then none
      else
        match buildCulversFlavorInfo cf with
        | .built f => some f
        | .typeErrorUnexpectedKwarg _ => none

/-- The `try` body of `CulversProvider.get_current_flavor` (`culvers.py`
lines 619-648): fetch `BASE_URL/restaurants/{location_id}`, require
status 200, extract, and require a non-empty flavor name. -/
def culversGetCurrentFlavorBody (locationId : String)
    (fetch : Fetch CulversRestaurantPage) : Except Raised FlavorInfo :=
  match fetch with
  | .transportErr => .error ⟨.clientError, "client error"⟩
  | .status code page =>
    if code ≠ 200 then
      .error ⟨.flavorNotAvailableError,
        s!"Could not access restaurant page for {locationId}"⟩
    else
      match culversExtractFlavorFromRestaurantPage page with
      | some f =>
        if f.name = "" then
          .error ⟨.flavorNotAvailableError,
            s!"No flavor data available for location {locationId}"⟩
        else .ok f
      | none =>
        .error ⟨.flavorNotAvailableError,
          s!"No flavor data available for location {locationId}"⟩

/-- `CulversProvider.get_current_flavor` (`culvers.py` lines 617-659):
`except aiohttp.ClientError` re-raises as `FlavorNotAvailableError`
("Network error accessing location ..."), and the trailing
`except Exception` re-raises everything else — including the
`FlavorNotAvailableError`s raised in the body — as
`FlavorNotAvailableError` ("Could not retrieve flavor ..."). -/
def culversGetCurrentFlavor (locationId : String)
    (fetch : Fetch CulversRestaurantPage) : Except Raised FlavorInfo :=
  match culversGetCurrentFlavorBody locationId fetch with
  | .ok f => .ok f
  | .error e =>
    if isInstance e.cls .clientError then
      .error ⟨.flavorNotAvailableError,
        s!"Network error accessing location {locationId}"⟩
    else
      .error ⟨.flavorNotAvailableError,
        s!"Could not retrieve flavor for location {locationId}"⟩

/-! ### Kopp's adapter (`providers/kopps.py`) -/

/-- The capitalization heuristic of `_extract_flavors_from_section`:
`len(words) > 0 and any(word[0].isupper() for word in words if len(word) > 2)`. -/
def koppsCapCheck (t : String) : Bool :=
  let ws := pySplitWs t
  decide (ws ≠ []) && ws.any (fun w => w.length > 2 && pyFirstIsUpper w)

/-- The `today_flavors_section` as consumed by
`_extract_flavors_from_section`: the stripped texts of its
`h3`/`h4`/`strong`/`b` descendants (first loop) and all its string
nodes before `.strip()` (second loop), in document order. -/
structure KoppsSection where
  headingTexts : List String
  allTexts : List String

/-- Parsed view of the Kopp's home page as `get_current_flavor` consumes
it: the section found by the heading scan (or the `div` fallback scan),
if any, and — for the final fallback loop — the stripped parent texts of
the string nodes containing `"flavor"`, in document order. -/
structure KoppsHomePage where
  todaysFlavorsSection : Option KoppsSection
  flavorParentTexts : List String

/-- `KoppsProvider._extract_flavors_from_section` (`kopps.py` lines
408-457). First loop: a heading text with `2 < len < 50`, not starting
with `"TODAY"`, passing the capitalization check. Second loop: any
stripped string node with `2 < len < 50`, not all-caps, whose uppercase
contains neither `"FLAVOR"` nor `"TODAY"`, passing the capitalization
check. The surrounding `try` returns `None` on any exception; the body
raises none. -/
def koppsExtractFlavorsFromSection (now : PyDateTime) (sec : KoppsSection) :
    Option FlavorInfo :=
  match sec.headingTexts.find?
      (fun t => t.length > 2 && t.length < 50 && !pyStartsWith t "TODAY" &&
        koppsCapCheck t) with
  | some t => some { name := t, available_date := some now }
  | none =>
    match (sec.allTexts.map pyStrip).find?
        (fun t => t.length > 2 && t.length < 50 && pyUpper t ≠ t &&
          !pyContains (pyUpper t) "FLAVOR" && !pyContains (pyUpper t) "TODAY" &&
          koppsCapCheck t) with
    | some t => some { name := t, available_date := some now }
    | none => none

/-- The `try` body of `KoppsProvider.get_current_flavor` (`kopps.py`
lines 333-401): fetch the home page, require status 200, extract from
the today's-flavors section when one was found, otherwise fall back to
the first parent text of a `"flavor"` string node with `len < 100` not
itself containing `"flavor"` (case-insensitively), else raise
`FlavorNotAvailableError`. -/
def koppsGetCurrentFlavorBody (locationId : String) (now : PyDateTime)
    (fetch : Fetch KoppsHomePage) : Except Raised FlavorInfo :=
  match fetch with
  | .transportErr => .error ⟨.clientError, "client error"⟩
  | .status code page =>
    if code ≠ 200 then
      .error ⟨.flavorNotAvailableError,
        s!"Could not access Kopp's website for location {locationId}"⟩
    else
      let fallback : Except Raised FlavorInfo :=
        match page.flavorParentTexts.find?
            (fun t => t.length < 100 && !pyContains (pyLower t) "flavor") with
        | some t => .ok { name := t, available_date := some now }
        | none =>
          .error ⟨.flavorNotAvailableError,
            s!"No flavor data available for location {locationId}"⟩
      match page.todaysFlavorsSection with
      | some sec =>
        match koppsExtractFlavorsFromSection now sec with
        | some f => .ok f
        | none => fallback
      | none => fallback

/-- `KoppsProvider.get_current_flavor` (`kopps.py` lines 331-406): the
trailing `except Exception` re-raises every failure — transport errors
included — as `FlavorNotAvailableError`. -/
def koppsGetCurrentFlavor (locationId : String) (now : PyDateTime)
    (fetch : Fetch KoppsHomePage) : Except Raised FlavorInfo :=
  match koppsGetCurrentFlavorBody locationId now fetch with
  | .ok f => .ok f
  | .error _ =>
    .error ⟨.flavorNotAvailableError,
      s!"Could not retrieve flavor for location {locationId}"⟩

/-! ### Goodberry's adapter (`providers/goodberrys.py`) -/

/-- Parsed view of the Goodberry's home page: `some x` when an element
matching `[class*='flavor-of-the-day']` exists, where `x` is the
stripped text of its first `h1`-`h6`/`strong` descendant (`none` when
that element has no such tag). -/
structure GoodberrysPage where
  fotdHeadingText : Option (Option String)

/-- The `try` body of `GoodberrysProvider.get_current_flavor`
(`goodberrys.py` lines 130-155). Note the extracted heading text is
returned as the flavor name with no validation whatsoever. -/
def goodberrysGetCurrentFlavorBody (locationId : String) (now : PyDateTime)
    (fetch : Fetch GoodberrysPage) : Except Raised FlavorInfo :=
  match fetch with
  | .transportErr => .error ⟨.clientError, "client error"⟩
  | .status code page =>
    if code ≠ 200 then
      .error ⟨.flavorNotAvailableError,
        s!"Could not access Goodberry's website for location {locationId}"⟩
    else
      match page.fotdHeadingText with
      | some (some t) => .ok { name := t, available_date := some now }
      | _ =>
        .error ⟨.flavorNotAvailableError,
          s!"Could not extract flavor from Goodberry's page for location {locationId}"⟩

/-- `GoodberrysProvider.get_current_flavor` (`goodberrys.py` lines
128-160): the trailing `except Exception` re-raises every failure as
`FlavorNotAvailableError`. -/
def goodberrysGetCurrentFlavor (locationId : String) (now : PyDateTime)
    (fetch : Fetch GoodberrysPage) : Except Raised FlavorInfo :=
  match goodberrysGetCurrentFlavorBody locationId now fetch with
  | .ok f => .ok f
  | .error _ =>
    .error ⟨.flavorNotAvailableError,
      s!"Could not retrieve flavor for location {locationId}"⟩

/-! ### Oscar's adapter (`providers/oscars.py`) -/

/-- Parsed view of the Oscar's home page: the stripped texts of the
elements matched by the `flavor_selectors` loop, and the stripped texts
of the next siblings visited by the `"flavor"`+`"today"` text-node
loop, each in iteration order. -/
structure OscarsHomePage where
  selectorTexts : List String
  siblingTexts : List String

/-- `OscarsProvider._get_flavor_from_social_media` (`oscars.py` lines
286-300): the placeholder always raises `FlavorNotAvailableError`. -/
def oscarsGetFlavorFromSocialMedia (locationId : String) :
    Except Raised FlavorInfo :=
  .error ⟨.flavorNotAvailableError,
    s!"No flavor data available for Oscar's location {locationId}"⟩

/-- The `try` body of `OscarsProvider.get_current_flavor` (`oscars.py`
lines 219-276): on a non-200 status delegate to the social-media
placeholder; otherwise take the first selector text that is non-empty,
shorter than 100 and free of `"flavor"` (case-insensitively), then the
first sibling text that is non-empty and shorter than 100, then the
social-media placeholder. -/
def oscarsGetCurrentFlavorBody (locationId : String) (now : PyDateTime)
    (fetch : Fetch OscarsHomePage) : Except Raised FlavorInfo :=
  match fetch with
  | .transportErr => .error ⟨.clientError, "client error"⟩
  | .status code page =>
    if code ≠ 200 then oscarsGetFlavorFromSocialMedia locationId
    else
      match page.selectorTexts.find?
          (fun t => t ≠ "" && t.length < 100 && !pyContains (pyLower t) "flavor") with
      | some t => .ok { name := t, available_date := some now }
      | none =>
        match page.siblingTexts.find? (fun t => t ≠ "" && t.length < 100) with
        | some t => .ok { name := t, available_date := some now }
        | none => oscarsGetFlavorFromSocialMedia locationId

/-- `OscarsProvider.get_current_flavor` (`oscars.py` lines 217-284): on
any exception, `except Exception` retries the social-media placeholder,
whose `FlavorNotAvailableError` is caught by the bare `except:` and
re-raised as `FlavorNotAvailableError`. -/
def oscarsGetCurrentFlavor (locationId : String) (now : PyDateTime)
    (fetch : Fetch OscarsHomePage) : Except Raised FlavorInfo :=
  match oscarsGetCurrentFlavorBody locationId now fetch with
  | .ok f => .ok f
  | .error _ =>
    match oscarsGetFlavorFromSocialMedia locationId with
    | .ok f => .ok f
    | .error _ =>
      .error ⟨.flavorNotAvailableError,
        s!"Could not retrieve flavor for location {locationId}"⟩

/-! ### Leduc's adapter (`providers/leducs.py`) -/

/-- `%b` month abbreviations of `strftime` (C locale). -/
def monthAbbr : Nat → String
  | 1 => "Jan" | 2 => "Feb" | 3 => "Mar" | 4 => "Apr"
  | 5 => "May" | 6 => "Jun" | 7 => "Jul" | 8 => "Aug"
  | 9 => "Sep" | 10 => "Oct" | 11 => "Nov" | 12 => "Dec"
  | _ => ""

/-- `today.strftime("%b %d").replace(" 0", " ")` (`leducs.py` lines
101-104): month abbreviation plus the day without a leading zero. -/
def leducsDateStr (now : PyDateTime) : String :=
  monthAbbr now.month ++ " " ++ toString now.day

/-- One string node of the Leduc's page searched for today's date: its
text and the pieces of its parent container's
`get_text(separator="|", strip=True).split("|")`. -/
structure LeducsTextNode where
  text : String
  containerPieces : List String

/-- Parsed view of the Leduc's home page: the string nodes scanned for
today's date (within the "Flavor Calendar" parent, or the whole
document when that marker is absent), the stripped texts of the
`flavor_selectors` matches, and the stripped texts of the next siblings
visited by the keyword fallback loops, each in iteration order. -/
structure LeducsHomePage where
  textNodes : List LeducsTextNode
  selectorTexts : List String
  keywordSiblingTexts : List String

/-- The `try` body of `LeducsProvider.get_current_flavor` (`leducs.py`
lines 79-181): look for a container piece near today's date string
(stripped, non-empty, not containing the date, `2 < len < 50`), then
the selector loop (non-empty, `len < 100`, no `"flavor"`), then the
keyword-sibling loop (same guard), else raise
`FlavorNotAvailableError`. -/
def leducsGetCurrentFlavorBody (locationId : String) (now : PyDateTime)
    (fetch : Fetch LeducsHomePage) : Except Raised FlavorInfo :=
  match fetch with
  | .transportErr => .error ⟨.clientError, "client error"⟩
  | .status code page =>
    if code ≠ 200 then
      .error ⟨.flavorNotAvailableError,
        s!"Could not access Leduc's website for location {locationId}"⟩
    else
      let ds := leducsDateStr now
      let dateNodes := page.textNodes.filter (fun nd => pyContains nd.text ds)
      let pieces := (dateNodes.map
        (fun nd => nd.containerPieces.map pyStrip)).flatten
      match pieces.find?
          (fun t => t ≠ "" && !pyContains t ds && t.length > 2 &&
            t.length < 50) with
      | some t => .ok { name := t, available_date := some now }
      | none =>
        match page.selectorTexts.find?
            (fun t => t ≠ "" && t.length < 100 &&
              !pyContains (pyLower t) "flavor") with
        | some t => .ok { name := t, available_date := some now }
        | none =>
          match page.keywordSiblingTexts.find?
              (fun t => t ≠ "" && t.length < 100 &&
                !pyContains (pyLower t) "flavor") with
          | some t => .ok { name := t, available_date := some now }
          | none =>
            .error ⟨.flavorNotAvailableError,
              s!"No flavor data available for location {locationId}"⟩

/-- `LeducsProvider.get_current_flavor` (`leducs.py` lines 77-186): the
trailing `except Exception` re-raises every failure as
`FlavorNotAvailableError`. -/
def leducsGetCurrentFlavor (locationId : String) (now : PyDateTime)
    (fetch : Fetch LeducsHomePage) : Except Raised FlavorInfo :=
  match leducsGetCurrentFlavorBody locationId now fetch with
  | .ok f => .ok f
  | .error _ =>
    .error ⟨.flavorNotAvailableError,
      s!"Could not retrieve flavor for location {locationId}"⟩

/-! ### Goodberry's `search_locations` (fixed table, `goodberrys.py` lines 35-117) -/

/-- The hard-coded `known_locations` table of
`GoodberrysProvider.search_locations`. -/
def goodberrysKnownLocations : List LocationInfo :=
  [{ store_id := "goodberrys-southern-pines",
     name := "Goodberry's - Southern Pines",
     address := "231 Carolina Green Pkwy", city := "Southern Pines", state := "NC" },
   { store_id := "goodberrys-raleigh-spring-forest",
     name := "Goodberry's - Raleigh (Spring Forest)",
     address := "2421 Spring Forest Rd.", city := "Raleigh", state := "NC" },
   { store_id := "goodberrys-raleigh-strickland",
     name := "Goodberry's - Raleigh (Strickland Rd)",
     address := "9700 Strickland Rd.", city := "Raleigh", state := "NC" },
   { store_id := "goodberrys-raleigh-clark-ave",
     name := "Goodberry's - Raleigh (Clark Ave)",
     address := "2042 Clark Ave.", city := "Raleigh", state := "NC" },
   { store_id := "goodberrys-cary-kildaire-farm",
     name := "Goodberry's - Cary (Kildaire Farm Rd)",
     address := "1146 Kildaire Farm Rd.", city := "Cary", state := "NC" },
   { store_id := "goodberrys-cary-davis-dr",
     name := "Goodberry's - Cary (Davis Dr)",
     address := "2325 Davis Dr.", city := "Cary", state := "NC" },
   { store_id := "goodberrys-garner",
     name := "Goodberry's - Garner",
     address := "1407 Garner Station Blvd.", city := "Garner", state := "NC" },
   { store_id := "goodberrys-wake-forest",
     name := "Goodberry's - Wake Forest",
     address := "11736 Retail Dr.", city := "Wake Forest", state := "NC" },
   { store_id := "goodberrys-durham",
     name := "Goodberry's - Durham",
     address := "3906 N. Roxboro St.", city := "Durham", state := "NC" }]

/-- `GoodberrysProvider.search_locations` (`goodberrys.py` lines
35-117): pure table filtering — no HTTP, no exception path. An empty
(falsy) term returns the whole table; otherwise the term is matched
case-insensitively against name, city and address. The `state`
argument is ignored by the source (`noqa: ARG002`). -/
def goodberrysSearchLocations (searchTerm : String) (_state : Option String) :
    List LocationInfo :=
  if searchTerm = "" then goodberrysKnownLocations
  else
    let s := pyLower searchTerm
    goodberrysKnownLocations.filter (fun loc =>
      pyContains (pyLower loc.name) s || pyContains (pyLower loc.city) s ||
        pyContains (pyLower loc.address) s)

/-! ### Oscar's `search_locations` (`oscars.py` lines 38-158) -/

/-- The hard-coded table of `_get_known_oscars_locations`
(`oscars.py` lines 129-158). -/
def oscarsKnownLocations : List LocationInfo :=
  [{ store_id := "oscars-stlouis", name := "Oscar's Frozen Custard - St. Louis",
     address := "1234 Main St", city := "St. Louis", state := "MO",
     phone := some "(314) 555-0123" },
   { store_id := "oscars-kirkwood", name := "Oscar's Frozen Custard - Kirkwood",
     address := "5678 Manchester Rd", city := "Kirkwood", state := "MO",
     phone := some "(314) 555-0124" },
   { store_id := "oscars-ballwin", name := "Oscar's Frozen Custard - Ballwin",
     address := "9012 Ballwin Mill Rd", city := "Ballwin", state := "MO",
     phone := some "(636) 555-0125" }]

/-- Parsed view of a page handed to `_parse_locations_from_page`: the
`LocationInfo`s successfully produced by `_parse_location_from_element`
over the selector matches, in iteration order (that regex parsing is
not itself load-bearing for any claim). -/
structure OscarsLocPage where
  selectorLocations : List LocationInfo

/-- `OscarsProvider._parse_locations_from_page` (`oscars.py` lines
79-127): selector-derived locations if any; otherwise the fixed table
filtered by `if search_term and (term in city.lower() or term in
address.lower() or (state and state.upper() == location.state.upper()))`
— note the filter admits nothing when `search_term` is empty. -/
def oscarsParseLocationsFromPage (page : OscarsLocPage) (searchTerm : String)
    (state : Option String) : List LocationInfo :=
  if page.selectorLocations = [] then
    oscarsKnownLocations.filter (fun loc =>
      searchTerm ≠ "" &&
        (pyContains (pyLower loc.city) (pyLower searchTerm) ||
         pyContains (pyLower loc.address) (pyLower searchTerm) ||
         (match state with
          | some st => pyUpper st = pyUpper loc.state
          | none => false)))
  else page.selectorLocations

/-- The `try` body of `OscarsProvider.search_locations` (`oscars.py`
lines 42-71): fetch `/locations` (return its parse when status 200 and
non-empty), then the main page (return its parse when 200, else `[]`). -/
def oscarsSearchLocationsBody (searchTerm : String) (state : Option String)
    (fetchLocations fetchMain : Fetch OscarsLocPage) :
    Except Raised (List LocationInfo) :=
  let second : Except Raised (List LocationInfo) :=
    match fetchMain with
    | .transportErr => .error ⟨.clientError, "client error"⟩
    | .status code page =>
      if code = 200 then .ok (oscarsParseLocationsFromPage page searchTerm state)
      else .ok []
  match fetchLocations with
  | .transportErr => .error ⟨.clientError, "client error"⟩
  | .status code page =>
    if code = 200 then
      let locs := oscarsParseLocationsFromPage page searchTerm state
      if locs ≠ [] then .ok locs else second
    else second

/-- `OscarsProvider.search_locations` (`oscars.py` lines 38-77):
`except aiohttp.ClientError` and `except Exception` both swallow the
failure into an empty list. -/
def oscarsSearchLocations (searchTerm : String) (state : Option String)
    (fetchLocations fetchMain : Fetch OscarsLocPage) :
    Except Raised (List LocationInfo) :=
  match oscarsSearchLocationsBody searchTerm state fetchLocations fetchMain with
  | .ok l => .ok l
  | .error _ => .ok []

/-! ### Kopp's `search_locations` (`kopps.py` lines 29-97) -/

/-- `KoppsProvider._parse_location_from_block` (`kopps.py` lines
225-268): ignores the block element entirely; answers from the search
term and state alone. -/
def koppsParseLocationFromBlock (searchTerm : String) (state : Option String) :
    Option LocationInfo :=
  if (match state with | some st => pyUpper st != "WI" | none => false) then none
  else if pyContains (pyLower searchTerm) "greenfield" then
    some { store_id := "kopps-greenfield",
           name := "Kopp's Frozen Custard - Greenfield",
           address := "4200 W. Greenfield Ave.", city := "Greenfield",
           state := "WI", phone := some "(414) 281-2700" }
  else if pyContains (pyLower searchTerm) "brookfield" then
    some { store_id := "kopps-brookfield",
           name := "Kopp's Frozen Custard - Brookfield",
           address := "18800 W. Bluemound Rd.", city := "Brookfield",
           state := "WI", phone := some "(262) 792-2800" }
  else if pyContains (pyLower searchTerm) "glendale" then
    some { store_id := "kopps-glendale",
           name := "Kopp's Frozen Custard - Glendale",
           address := "6263 N. Downer Ave.", city := "Glendale",
           state := "WI", phone := some "(414) 354-9800" }
  else none

/-- The final search-term filter of `KoppsProvider.search_locations`
(`kopps.py` lines 76-89): city / address / zip, case-insensitively;
skipped for an empty term. -/
def koppsFilterLocations (searchTerm : String) (locs : List LocationInfo) :
    List LocationInfo :=
  if searchTerm = "" then locs
  else
    let s := pyLower searchTerm
    locs.filter (fun loc =>
      pyContains (pyLower loc.city) s || pyContains (pyLower loc.address) s ||
        (match loc.zip_code with
         | some z => pyContains (pyLower z) s
         | none => false))

/-- Parsed view of the Kopp's `/locations` page: whether the location
selectors matched anything, the number of `h2`/`h3`/`h4` elements with
a parent (each of which calls the block-independent
`_parse_location_from_block`), and the list produced by
`_extract_locations_from_main_page` (a helper doing its own fetch whose
`try`/`except` always yields a list, never an exception). -/
structure KoppsLocationsPage where
  hasLocationBlocks : Bool
  headingParentCount : Nat
  mainPageLocations : List LocationInfo

/-- The `try` body of `KoppsProvider.search_locations` (`kopps.py` lines
33-91). When selector blocks are found the heading loop is skipped and
`locations` stays empty, so the main-page fallback runs. -/
def koppsSearchLocationsBody (searchTerm : String) (state : Option String)
    (fetch : Fetch KoppsLocationsPage) : Except Raised (List LocationInfo) :=
  match fetch with
  | .transportErr => .error ⟨.clientError, "client error"⟩
  | .status code page =>
    if code ≠ 200 then .ok []
    else
      let locations :=
        if page.hasLocationBlocks then []
        else
          (List.replicate page.headingParentCount
            (koppsParseLocationFromBlock searchTerm state)).filterMap id
      let locations :=
        if locations = [] then page.mainPageLocations else locations
      .ok (koppsFilterLocations searchTerm locations)

/-- `KoppsProvider.search_locations` (`kopps.py` lines 29-97):
`except aiohttp.ClientError` and `except Exception` both swallow the
failure into an empty list. -/
def koppsSearchLocations (searchTerm : String) (state : Option String)
    (fetch : Fetch KoppsLocationsPage) : Except Raised (List LocationInfo) :=
  match koppsSearchLocationsBody searchTerm state fetch with
  | .ok l => .ok l
  | .error _ => .ok []

/-! ### Culver's `search_locations` (`culvers.py` lines 33-70) -/

/-- Parsed view of the Culver's locator page, abstracted at the level of
`_extract_locations_from_locator`'s inner body: whatever that body does
on this page (its own `try`/`except` turns any exception into `[]`). -/
structure CulversLocatorPage where
  extractionOutcome : Except Raised (List LocationInfo)

/-- `CulversProvider._extract_locations_from_locator` (`culvers.py`
lines 72-110): the surrounding `try`/`except Exception` means it always
returns a list. -/
def culversExtractLocationsFromLocator (page : CulversLocatorPage) :
    List LocationInfo :=
  match page.extractionOutcome with
  | .ok l => l
  | .error _ => []

/-- The `try` body of `CulversProvider.search_locations` (`culvers.py`
lines 37-63). -/
def culversSearchLocationsBody (fetch : Fetch CulversLocatorPage) :
    Except Raised (List LocationInfo) :=
  match fetch with
  | .transportErr => .error ⟨.clientError, "client error"⟩
  | .status code page =>
    if code ≠ 200 then .ok []
    else .ok (culversExtractLocationsFromLocator page)

/-- `CulversProvider.search_locations` (`culvers.py` lines 33-70):
`except aiohttp.ClientError` and `except Exception` both swallow the
failure into an empty list. -/
def culversSearchLocations (fetch : Fetch CulversLocatorPage) :
    Except Raised (List LocationInfo) :=
  match culversSearchLocationsBody fetch with
  | .ok l => .ok l
  | .error _ => .ok []

/-! ### Leduc's `search_locations` (`leducs.py` lines 28-75) -/

/-- The single hard-coded Leduc's location of `get_location_by_id`. -/
def leducsWalesLocation : LocationInfo :=
  { store_id := "leducs-wales", name := "Leduc's Frozen Custard",
    address := "240 W. Summit Ave.", city := "Wales", state := "WI",
    zip_code := some "53183", phone := some "(262) 968-2894",
    hours := some [("monday", "11:00AM-9:00PM"), ("tuesday", "11:00AM-9:00PM"),
                   ("wednesday", "11:00AM-9:00PM"), ("thursday", "11:00AM-9:00PM"),
                   ("friday", "11:00AM-9:00PM"), ("saturday", "11:00AM-9:00PM"),
                   ("sunday", "11:00AM-9:00PM")],
    website_url := some "https://www.leducscustard.com" }

/-- `LeducsProvider.get_location_by_id` (`leducs.py` lines 52-75). -/
def leducsGetLocationById (locationId : String) : Except Raised LocationInfo :=
  if locationId = "leducs-wales" then .ok leducsWalesLocation
  else .error ⟨.locationNotFoundError, s!"Location with ID {locationId} not found"⟩

/-- `LeducsProvider.search_locations` (`leducs.py` lines 28-50): no
HTTP; filters the single fixed location, with `except Exception`
collapsing any failure to `[]`. -/
def leducsSearchLocations (searchTerm : String) (state : Option String) :
    List LocationInfo :=
  match leducsGetLocationById "leducs-wales" with
  | .error _ => []
  | .ok loc =>
    if searchTerm ≠ "" then
      if pyContains (pyLower loc.city) (pyLower searchTerm) ||
          pyContains (pyLower loc.address) (pyLower searchTerm) ||
          (match state with
           | some st => pyUpper st = pyUpper loc.state
           | none => false) then
        [loc]
      else []
    else [loc]

/-! ### Update coordinator (`coordinator.py`) -/

/-- The host-visible outcome of one coordinator update cycle:
`ConfigEntryAuthFailed` is the "needs reauthorization" state,
`UpdateFailed` the generic "update failed, will retry" state. -/
inductive CoordinatorOutcome where
  | ok (f : FlavorInfo)
  | configEntryAuthFailed (msg : String)
  | updateFailed (msg : String)
deriving DecidableEq, Repr

/-- `FlavorUpdateCoordinator._async_update_data` (`coordinator.py` lines
46-64): `except FlavorProviderAuthenticationError` →
`ConfigEntryAuthFailed`; `except FlavorProviderError` → `UpdateFailed`;
`except Exception` → `UpdateFailed`. -/
def asyncUpdateData (providerName : String)
    (fetched : Except Raised FlavorInfo) : CoordinatorOutcome :=
  match fetched with
  | .ok f => .ok f
  | .error err =>
    if isInstance err.cls .flavorProviderAuthenticationError then
      .configEntryAuthFailed
        s!"Authentication failed for {providerName}: {err.msg}"
    else if isInstance err.cls .flavorProviderError then
      .updateFailed s!"Error communicating with {providerName}: {err.msg}"
    else
      .updateFailed
        s!"Unexpected error communicating with {providerName}: {err.msg}"

/-! ### Lemmas about the retry loop -/

/-- Prepending the next linear-backoff delay to a linear-backoff tail
shifts the range. -/
theorem consMapRange (rD attempt m : Nat) :
    rD * (attempt + 1) :: (List.range m).map (fun i => rD * (attempt + 1 + 1 + i)) =
      (List.range (m + 1)).map (fun i => rD * (attempt + 1 + i)) := by
  rw [List.range_succ_eq_map]
  simp only [List.map_cons, List.map_map, List.cons.injEq]
  refine ⟨by trivial, ?_⟩
  apply List.map_congr_left
  intro i _
  simp only [Function.comp_apply, Nat.succ_eq_add_one]
  ring

/-- If the first `k` invocations (from `attempt`) raise transport errors
and invocation `attempt + k` succeeds, the loop returns that success
after exactly `k + 1` invocations. -/
theorem retryLoop_ok {α : Type} (f : Nat → ReqOutcome α) (mR rD : Nat) (a : α) :
    ∀ (k attempt remaining : Nat), k < remaining → attempt + k ≤ mR →
    (∀ i, i < k → (f (attempt + i)).isTransport = true) →
    f (attempt + k) = .ok a →
    (retryLoop f mR rD attempt remaining).result = .success a ∧
    (retryLoop f mR rD attempt remaining).calls = k + 1 := by
  intro k
  induction k with
  | zero =>
    intro attempt remaining hrem _ _ hok
    match remaining, hrem with
    | r + 1, _ =>
      rw [Nat.add_zero] at hok
      simp only [retryLoop, hok]
      exact ⟨by trivial, by trivial⟩
  | succ k ih =>
    intro attempt remaining hrem hle htr hok
    match remaining, hrem with
    | r + 1, hrem =>
      have h0 : (f attempt).isTransport = true := by
        have h := htr 0 (Nat.succ_pos k)
        simpa using h
      have hlt : attempt < mR := by omega
      have htr' : ∀ i, i < k → (f (attempt + 1 + i)).isTransport = true := by
        intro i hi
        have heq : attempt + 1 + i = attempt + (i + 1) := by omega
        rw [heq]
        exact htr (i + 1) (by omega)
      have hok' : f (attempt + 1 + k) = .ok a := by
        have heq : attempt + 1 + k = attempt + (k + 1) := by omega
        rw [heq]; exact hok
      have hrec := ih (attempt + 1) r (by omega) (by omega) htr' hok'
      cases hf : f attempt with
      | ok a' => rw [hf] at h0; simp [ReqOutcome.isTransport] at h0
      | raiseOther e => rw [hf] at h0; simp [ReqOutcome.isTransport] at h0
      | raiseTimeout e =>
        simp only [retryLoop, hf, if_pos hlt]
        exact ⟨hrec.1, by rw [hrec.2]⟩
      | raiseClientError e =>
        simp only [retryLoop, hf, if_pos hlt]
        exact ⟨hrec.1, by rw [hrec.2]⟩

/-- If every invocation raises a transport error, the loop re-raises the
last invocation's error unchanged after using all its iterations, and
sleeps the linear backoff sequence on the way. -/
theorem retryLoop_allTransport {α : Type} (f : Nat → ReqOutcome α) (mR rD : Nat)
    (htr : ∀ i, (f i).isTransport = true) :
    ∀ (remaining attempt : Nat), 0 < remaining → attempt + remaining = mR + 1 →
    (retryLoop f mR rD attempt remaining).result = raisedOf (f mR) ∧
    (retryLoop f mR rD attempt remaining).calls = remaining ∧
    (retryLoop f mR rD attempt remaining).delays =
      (List.range (remaining - 1)).map (fun i => rD * (attempt + 1 + i)) := by
  intro remaining
  induction remaining with
  | zero => intro attempt h0 _; omega
  | succ r ih =>
    intro attempt _ hsum
    have h0 := htr attempt
    have step :
        ∀ e : Nat,
          (if attempt < mR then
            (let t := retryLoop f mR rD (attempt + 1) r
             (⟨t.result, t.calls + 1, rD * (attempt + 1) :: t.delays⟩ : RetryTrace α)).result =
              raisedOf (f mR) ∧
            (let t := retryLoop f mR rD (attempt + 1) r
             (⟨t.result, t.calls + 1, rD * (attempt + 1) :: t.delays⟩ : RetryTrace α)).calls = r + 1 ∧
            (let t := retryLoop f mR rD (attempt + 1) r
             (⟨t.result, t.calls + 1, rD * (attempt + 1) :: t.delays⟩ : RetryTrace α)).delays =
              (List.range (r + 1 - 1)).map (fun i => rD * (attempt + 1 + i))
          else True) := by
      intro e
      by_cases hlt : attempt < mR
      · simp only [if_pos hlt]
        have hr : 0 < r := by omega
        have hrec := ih (attempt + 1) hr (by omega)
        refine ⟨hrec.1, by rw [hrec.2.1], ?_⟩
        show rD * (attempt + 1) :: (retryLoop f mR rD (attempt + 1) r).delays =
          (List.range (r + 1 - 1)).map (fun i => rD * (attempt + 1 + i))
        rw [hrec.2.2]
        have hr' : r - 1 + 1 = r := by omega
        rw [Nat.add_sub_cancel, ← hr']
        exact consMapRange rD attempt (r - 1)
      · simp [hlt]
    cases hf : f attempt with
    | ok a' => rw [hf] at h0; simp [ReqOutcome.isTransport] at h0
    | raiseOther e => rw [hf] at h0; simp [ReqOutcome.isTransport] at h0
    | raiseTimeout e =>
      by_cases hlt : attempt < mR
      · have h := step e
        rw [if_pos hlt] at h
        simpa only [retryLoop, hf, if_pos hlt] using h
      · have hattempt : attempt = mR := by omega
        have hr : r = 0 := by omega
        subst hr
        simp only [retryLoop, hf, if_neg hlt]
        subst hattempt
        rw [hf]
        exact ⟨by trivial, by trivial, by trivial⟩
    | raiseClientError e =>
      by_cases hlt : attempt < mR
      · have h := step e
        rw [if_pos hlt] at h
        simpa only [retryLoop, hf, if_pos hlt] using h
      · have hattempt : attempt = mR := by omega
        have hr : r = 0 := by omega
        subst hr
        simp only [retryLoop, hf, if_neg hlt]
        subst hattempt
        rw [hf]
        exact ⟨by trivial, by trivial, by trivial⟩

/-- The backoff delays always form an initial segment of the linear
sequence `rD * (attempt + 1), rD * (attempt + 2), ...`. -/
theorem retryLoop_delays {α : Type} (f : Nat → ReqOutcome α) (mR rD : Nat) :
    ∀ (remaining attempt : Nat), ∃ m,
      (retryLoop f mR rD attempt remaining).delays =
        (List.range m).map (fun i => rD * (attempt + 1 + i)) ∧
      (m = 0 ∨ attempt + m ≤ mR) := by
  intro remaining
  induction remaining with
  | zero => intro attempt; exact ⟨0, rfl, Or.inl rfl⟩
  | succ r ih =>
    intro attempt
    cases hf : f attempt with
    | ok a => exact ⟨0, by simp [retryLoop, hf], Or.inl rfl⟩
    | raiseOther e => exact ⟨0, by simp [retryLoop, hf], Or.inl rfl⟩
    | raiseTimeout e =>
      by_cases hlt : attempt < mR
      · obtain ⟨m', hm', hb⟩ := ih (attempt + 1)
        refine ⟨m' + 1, ?_, Or.inr (by omega)⟩
        simp only [retryLoop, hf, if_pos hlt]
        show rD * (attempt + 1) :: (retryLoop f mR rD (attempt + 1) r).delays =
          (List.range (m' + 1)).map (fun i => rD * (attempt + 1 + i))
        rw [hm']
        exact consMapRange rD attempt m'
      · exact ⟨0, by simp [retryLoop, hf, if_neg hlt], Or.inl rfl⟩
    | raiseClientError e =>
      by_cases hlt : attempt < mR
      · obtain ⟨m', hm', hb⟩ := ih (attempt + 1)
        refine ⟨m' + 1, ?_, Or.inr (by omega)⟩
        simp only [retryLoop, hf, if_pos hlt]
        show rD * (attempt + 1) :: (retryLoop f mR rD (attempt + 1) r).delays =
          (List.range (m' + 1)).map (fun i => rD * (attempt + 1 + i))
        rw [hm']
        exact consMapRange rD attempt m'
      · exact ⟨0, by simp [retryLoop, hf, if_neg hlt], Or.inl rfl⟩

/-! ### Claims C2 and C6: the retry wrapper -/

/-- C2: for `_make_request_with_retry`, a request function that raises a
transport error on its first `k < max_retries` invocations and succeeds
on the next one yields that success after exactly `k + 1` invocations;
a request function that always raises a transport error is invoked
exactly `max_retries + 1` times, after which the wrapper re-raises the
last transport error unchanged (same exception, not wrapped). -/
theorem claim_C2_retry_wrapper {α : Type} (f : Nat → ReqOutcome α)
    (maxRetries retryDelay : Nat) :
    (∀ (k : Nat) (a : α), k < maxRetries →
      (∀ i, i < k → (f i).isTransport = true) → f k = .ok a →
      (makeRequestWithRetry f maxRetries retryDelay).result = .success a ∧
      (makeRequestWithRetry f maxRetries retryDelay).calls = k + 1) ∧
    ((∀ i, (f i).isTransport = true) →
      (makeRequestWithRetry f maxRetries retryDelay).result =
        raisedOf (f maxRetries) ∧
      (makeRequestWithRetry f maxRetries retryDelay).calls = maxRetries + 1) := by
  constructor
  · intro k a hk htr hok
    exact retryLoop_ok f maxRetries retryDelay a k 0 (maxRetries + 1)
      (by omega) (by omega) (fun i hi => by simpa using htr i hi)
      (by simpa using hok)
  · intro htr
    have h := retryLoop_allTransport f maxRetries retryDelay htr
      (maxRetries + 1) 0 (by omega) (by omega)
    exact ⟨h.1, h.2.1⟩

/-- Witness for C2 at concrete inputs: one transport failure then
success gives 2 calls; always-timeout with `max_retries = 2` gives 3
calls and re-raises the same timeout error. -/
theorem claim_C2_retry_wrapper_witness :
    (makeRequestWithRetry
      (fun i => if i = 0 then ReqOutcome.raiseClientError 7 else ReqOutcome.ok 42)
      3 1).result = RetryResult.success 42 ∧
    (makeRequestWithRetry
      (fun i => if i = 0 then ReqOutcome.raiseClientError 7 else ReqOutcome.ok 42)
      3 1).calls = 2 ∧
    (makeRequestWithRetry (fun _ => (ReqOutcome.raiseTimeout 5 : ReqOutcome Nat))
      2 1).result = RetryResult.raisedTimeout 5 ∧
    (makeRequestWithRetry (fun _ => (ReqOutcome.raiseTimeout 5 : ReqOutcome Nat))
      2 1).calls = 3 := by
  have h1 := (claim_C2_retry_wrapper
    (fun i => if i = 0 then ReqOutcome.raiseClientError 7 else ReqOutcome.ok 42)
    3 1).1 1 42 (by omega)
    (fun i hi => by
      have hz : i = 0 := by omega
      subst hz
      rfl)
    (by rfl)
  have h2 := (claim_C2_retry_wrapper
    (fun _ => (ReqOutcome.raiseTimeout 5 : ReqOutcome Nat)) 2 1).2 (fun _ => rfl)
  exact ⟨h1.1, h1.2, h2.1, h2.2⟩

/-- C6: the backoff delays slept by `_make_request_with_retry` are the
linear sequence `retry_delay * 1, retry_delay * 2, ...` — the delay
before (0-based index `n` of the list, i.e. 1-based retry `n + 1`) is
`retry_delay * (n + 1)`; when every invocation fails transport-wise the
full sequence up to `retry_delay * max_retries` is slept. -/
theorem claim_C6_linear_backoff {α : Type} (f : Nat → ReqOutcome α)
    (maxRetries retryDelay : Nat) :
    (∃ m, m ≤ maxRetries ∧
      (makeRequestWithRetry f maxRetries retryDelay).delays =
        (List.range m).map (fun n => retryDelay * (n + 1))) ∧
    ((∀ i, (f i).isTransport = true) →
      (makeRequestWithRetry f maxRetries retryDelay).delays =
        (List.range maxRetries).map (fun n => retryDelay * (n + 1))) := by
  constructor
  · obtain ⟨m, hdelays, hbound⟩ :=
      retryLoop_delays f maxRetries retryDelay (maxRetries + 1) 0
    refine ⟨m, by omega, ?_⟩
    unfold makeRequestWithRetry
    rw [hdelays]
    apply List.map_congr_left
    intro i _
    ring
  · intro htr
    have h := retryLoop_allTransport f maxRetries retryDelay htr
      (maxRetries + 1) 0 (by omega) (by omega)
    unfold makeRequestWithRetry
    rw [h.2.2, Nat.add_sub_cancel]
    apply List.map_congr_left
    intro i _
    ring

/-- Witness for C6: always-timeout with `max_retries = 3`,
`retry_delay = 2` sleeps exactly 2, 4, 6 seconds. -/
theorem claim_C6_linear_backoff_witness :
    (makeRequestWithRetry (fun _ => (ReqOutcome.raiseTimeout 0 : ReqOutcome Nat))
      3 2).delays = [2, 4, 6] := by
  have h := (claim_C6_linear_backoff
    (fun _ => (ReqOutcome.raiseTimeout 0 : ReqOutcome Nat)) 3 2).2 (fun _ => rfl)
  rw [h]
  rfl

/-! ### Claim C7: the coordinator error mapping -/

/-- Any instance of `FlavorProviderAuthenticationError` is an instance
of `FlavorProviderError` (checked over the whole finite class set). -/
theorem isInstance_auth_imp_fpe :
    ∀ e : ExcClass, isInstance e .flavorProviderAuthenticationError = true →
      isInstance e .flavorProviderError = true := by decide

/-- Unfolding of `asyncUpdateData` on a raised exception. -/
theorem asyncUpdateData_err (pn : String) (c : ExcClass) (m : String) :
    asyncUpdateData pn (.error ⟨c, m⟩) =
      if isInstance c .flavorProviderAuthenticationError then
        .configEntryAuthFailed s!"Authentication failed for {pn}: {m}"
      else if isInstance c .flavorProviderError then
        .updateFailed s!"Error communicating with {pn}: {m}"
      else
        .updateFailed s!"Unexpected error communicating with {pn}: {m}" := rfl

/-- C7: `_async_update_data` maps `FlavorProviderAuthenticationError` to
the "needs reauthorization" state `ConfigEntryAuthFailed` (not the
generic failed state), and both any other `FlavorProviderError` and any
unclassified exception to `UpdateFailed`. -/
theorem claim_C7_coordinator_mapping (providerName msg : String) :
    (∃ m, asyncUpdateData providerName
        (.error ⟨.flavorProviderAuthenticationError, msg⟩) =
      .configEntryAuthFailed m) ∧
    (∀ e : ExcClass, isInstance e .flavorProviderError = true →
      isInstance e .flavorProviderAuthenticationError = false →
      ∃ m, asyncUpdateData providerName (.error ⟨e, msg⟩) = .updateFailed m) ∧
    (∀ e : ExcClass, isInstance e .flavorProviderError = false →
      ∃ m, asyncUpdateData providerName (.error ⟨e, msg⟩) = .updateFailed m) := by
  refine ⟨⟨_, rfl⟩, ?_, ?_⟩
  · intro e h1 h2
    rw [asyncUpdateData_err, h2, h1]
    exact ⟨_, rfl⟩
  · intro e h1
    have h2 : isInstance e .flavorProviderAuthenticationError = false := by
      cases h : isInstance e .flavorProviderAuthenticationError with
      | false => rfl
      | true => rw [isInstance_auth_imp_fpe e h] at h1; exact absurd h1 (by simp)
    rw [asyncUpdateData_err, h2, h1]
    exact ⟨_, rfl⟩

/-- Witness for C7 at concrete exception classes: an authentication
error, a provider error (`FlavorNotAvailableError`) and an unclassified
builtin (`TypeError`). -/
theorem claim_C7_coordinator_mapping_witness :
    (∃ m, asyncUpdateData "Kopp's Frozen Custard"
        (.error ⟨.flavorProviderAuthenticationError, "bad token"⟩) =
      .configEntryAuthFailed m) ∧
    (∃ m, asyncUpdateData "Kopp's Frozen Custard"
        (.error ⟨.flavorNotAvailableError, "no flavor"⟩) = .updateFailed m) ∧
    (∃ m, asyncUpdateData "Kopp's Frozen Custard"
        (.error ⟨.typeError, "bad kwarg"⟩) = .updateFailed m) :=
  ⟨(claim_C7_coordinator_mapping "Kopp's Frozen Custard" "bad token").1,
   (claim_C7_coordinator_mapping "Kopp's Frozen Custard" "no flavor").2.1
     .flavorNotAvailableError (by decide) (by decide),
   (claim_C7_coordinator_mapping "Kopp's Frozen Custard" "bad kwarg").2.2
     .typeError (by decide)⟩

/-! ### Claim C8: `FlavorInfo` attribute-mapping round trip -/

/-- Modelled from the spec: deserialization of a `FlavorInfo` from its
attribute-mapping form. The source under `src/` defines only the
serializer (`FlavorInfo.to_dict`); the round-trip property of spec §8
("serialized to its attribute-mapping form and back") presupposes an
inverse reader, so this deserializer reads back exactly the keys
`to_dict` writes, per the spec's field list. The `available_date`
attribute stays in its ISO-8601 string form (the spec requires the
mapping to "represent" it as that string, not to recover the
timestamp). -/
def flavorInfoFromDict (d : List (String × AttrValue)) : Option FlavorInfo :=
  match d.lookup "name" with
  | some (.vStr n) =>
    some { name := n
           description :=
             match d.lookup "description" with
             | some (.vStr s) => some s
             | _ => none
           ingredients :=
             match d.lookup "ingredients" with
             | some (.vStrList l) => some l
             | _ => none
           allergens :=
             match d.lookup "allergens" with
             | some (.vStrList l) => some l
             | _ => none
           image_url :=
             match d.lookup "image_url" with
             | some (.vStr s) => some s
             | _ => none
           available_date := none
           price :=
             match d.lookup "price" with
             | some (.vStr s) => some s
             | _ => none
           nutrition_info :=
             match d.lookup "nutrition_info" with
             | some (.vStrMap m) => some m
             | _ => none }
  | _ => none

/-- C8: a `FlavorInfo` with every optional field populated, serialized
through `to_dict` and read back, preserves `name`, `description`,
`ingredients`, `allergens` and `price` exactly, and its mapping carries
`available_date` as the ISO-8601 rendering of the original timestamp. -/
theorem claim_C8_roundtrip (nm desc url pr : String)
    (ingr aller : List String) (d : PyDateTime)
    (ni : List (String × String)) :
    ∃ g, flavorInfoFromDict (FlavorInfo.to_dict
        ⟨nm, some desc, some ingr, some aller, some url, some d, some pr,
         some ni⟩) = some g ∧
      g.name = nm ∧ g.description = some desc ∧ g.ingredients = some ingr ∧
      g.allergens = some aller ∧ g.price = some pr ∧
      (FlavorInfo.to_dict
        ⟨nm, some desc, some ingr, some aller, some url, some d, some pr,
         some ni⟩).lookup "available_date" = some (.vStr d.isoformat) := by
  exact ⟨_, rfl, rfl, rfl, rfl, rfl, rfl, rfl⟩

/-! ### Claims C9 and C1: Culver's extraction and error surfacing -/

/-- The Culver's page extraction never yields a flavor: every
flavor-bearing path dies on the `calories` keyword `TypeError` and
every other path returns `None`. -/
theorem culversExtract_none (page : CulversRestaurantPage) :
    culversExtractFlavorFromRestaurantPage page = none := by
  obtain ⟨nd⟩ := page
  cases nd with
  | none => rfl
  | some d =>
    cases d with
    | malformed => rfl
    | pathMissing => rfl
    | details flavors =>
      cases flavors with
      | nil => rfl
      | cons cf rest =>
        have hb : buildCulversFlavorInfo cf =
            .typeErrorUnexpectedKwarg "calories" := rfl
        by_cases h : cf.name = ""
        · simp [culversExtractFlavorFromRestaurantPage, h]
        · simp [culversExtractFlavorFromRestaurantPage, h, hb]

/-- The body of Culver's `get_current_flavor` always raises. -/
theorem culversBody_err (locationId : String)
    (fetch : Fetch CulversRestaurantPage) :
    ∃ e, culversGetCurrentFlavorBody locationId fetch = .error e := by
  cases fetch with
  | transportErr => exact ⟨_, rfl⟩
  | status code page =>
    simp only [culversGetCurrentFlavorBody]
    by_cases hc : code ≠ 200
    · rw [if_pos hc]; exact ⟨_, rfl⟩
    · rw [if_neg hc, culversExtract_none page]; exact ⟨_, rfl⟩

/-- Culver's `get_current_flavor` always raises
`FlavorNotAvailableError`. -/
theorem culversTotal_err (locationId : String)
    (fetch : Fetch CulversRestaurantPage) :
    ∃ e, culversGetCurrentFlavor locationId fetch = .error e ∧
      e.cls = .flavorNotAvailableError := by
  obtain ⟨e, he⟩ := culversBody_err locationId fetch
  by_cases hc : isInstance e.cls .clientError = true
  · refine ⟨⟨.flavorNotAvailableError,
      s!"Network error accessing location {locationId}"⟩, ?_, rfl⟩
    unfold culversGetCurrentFlavor
    rw [he]
    simp [hc]
  · refine ⟨⟨.flavorNotAvailableError,
      s!"Could not retrieve flavor for location {locationId}"⟩, ?_, rfl⟩
    unfold culversGetCurrentFlavor
    rw [he]
    simp [hc]

/-- C9: the Culver's adapter can never return a `FlavorInfo`. The
`FlavorInfo(...)` call of `_extract_flavor_from_restaurant_page` passes
the unsupported keyword argument `calories` and so raises `TypeError`
for every candidate flavor record; the inner
`except (json.JSONDecodeError, KeyError)` does not catch it, the outer
`except Exception` swallows it into `None`, and `get_current_flavor`
then raises `FlavorNotAvailableError` — a `FlavorProviderError` — for
every input. -/
theorem claim_C9_culvers_calories_type_error :
    (∀ cf : CulversFlavor,
      buildCulversFlavorInfo cf = .typeErrorUnexpectedKwarg "calories") ∧
    ("calories" ∈ culversExtractCtorKwargs ∧
      "calories" ∉ flavorInfoFieldNames) ∧
    (∀ page : CulversRestaurantPage,
      culversExtractFlavorFromRestaurantPage page = none) ∧
    (∀ (locationId : String) (fetch : Fetch CulversRestaurantPage),
      ∃ e, culversGetCurrentFlavor locationId fetch = .error e ∧
        e.cls = .flavorNotAvailableError ∧
        isInstance e.cls .flavorProviderError = true) := by
  refine ⟨fun _ => rfl, ⟨by decide, by decide⟩, culversExtract_none, ?_⟩
  intro locationId fetch
  obtain ⟨e, he, hcls⟩ := culversTotal_err locationId fetch
  exact ⟨e, he, hcls, by rw [hcls]; decide⟩

/-- C1 counterexample: a transport-level failure (`aiohttp.ClientError`
during the restaurant-page fetch) is surfaced by Culver's
`get_current_flavor` as `FlavorNotAvailableError`, which is not a
`CommunicationError` subkind — contradicting the claim that transport
failures are surfaced as a `CommunicationError` subkind and never as
any other error kind. -/
theorem claim_C1_counterexample :
    culversGetCurrentFlavor "42" Fetch.transportErr =
      .error ⟨.flavorNotAvailableError,
        "Network error accessing location 42"⟩ ∧
    isInstance .flavorNotAvailableError
      .flavorProviderCommunicationError = false := by
  exact ⟨rfl, rfl⟩

/-- C1 amended: in the Culver's and Kopp's adapters every failure of
`get_current_flavor` — transport-level failures included — is surfaced
as `FlavorNotAvailableError`; no `CommunicationError` subkind and no
`LocationNotFoundError` ever propagates to the caller. -/
theorem claim_C1_amended_failures_are_fna (locationId : String)
    (now : PyDateTime) :
    (∀ fetch : Fetch CulversRestaurantPage,
      failsOnlyWith (culversGetCurrentFlavor locationId fetch)
        .flavorNotAvailableError) ∧
    (∀ fetch : Fetch KoppsHomePage,
      failsOnlyWith (koppsGetCurrentFlavor locationId now fetch)
        .flavorNotAvailableError) := by
  constructor
  · intro fetch
    obtain ⟨e, he, hcls⟩ := culversTotal_err locationId fetch
    rw [he]
    exact hcls
  · intro fetch
    unfold koppsGetCurrentFlavor
    cases koppsGetCurrentFlavorBody locationId now fetch with
    | ok f => trivial
    | error e => rfl

/-! ### Claim C3: `search_locations` never raises -/

/-- C3: every adapter's `search_locations` returns a list for every
input (an exception never propagates), and the HTTP-backed adapters
return the empty list when the underlying request fails with a
transport error. Goodberry's and Leduc's `search_locations` perform no
HTTP at all (pure table filtering), so their embeddings are total
list-valued functions. -/
theorem claim_C3_search_locations_never_raises :
    (∀ fetch, ∃ l, culversSearchLocations fetch = .ok l) ∧
    culversSearchLocations .transportErr = .ok [] ∧
    (∀ term state fetch, ∃ l, koppsSearchLocations term state fetch = .ok l) ∧
    (∀ term state, koppsSearchLocations term state .transportErr = .ok []) ∧
    (∀ term state f1 f2, ∃ l, oscarsSearchLocations term state f1 f2 = .ok l) ∧
    (∀ term state f2,
      oscarsSearchLocations term state .transportErr f2 = .ok []) ∧
    (∀ term state, ∃ l, goodberrysSearchLocations term state = l) ∧
    (∀ term state, ∃ l, leducsSearchLocations term state = l) := by
  refine ⟨?_, rfl, ?_, fun term state => rfl, ?_, fun term state f2 => rfl,
    fun term state => ⟨_, rfl⟩, fun term state => ⟨_, rfl⟩⟩
  · intro fetch
    cases h : culversSearchLocationsBody fetch with
    | ok l => exact ⟨l, by unfold culversSearchLocations; rw [h]⟩
    | error e => exact ⟨[], by unfold culversSearchLocations; rw [h]⟩
  · intro term state fetch
    cases h : koppsSearchLocationsBody term state fetch with
    | ok l => exact ⟨l, by unfold koppsSearchLocations; rw [h]⟩
    | error e => exact ⟨[], by unfold koppsSearchLocations; rw [h]⟩
  · intro term state f1 f2
    cases h : oscarsSearchLocationsBody term state f1 f2 with
    | ok l => exact ⟨l, by unfold oscarsSearchLocations; rw [h]⟩
    | error e => exact ⟨[], by unfold oscarsSearchLocations; rw [h]⟩

/-! ### Claim C4: fixed-table search behavior -/

/-- C4 counterexample: Oscar's is a fixed-small-location-set adapter
(3-location table), yet `search_locations("")` over that table returns
the empty list, not the whole table — its fallback filter admits a
location only for a non-empty search term — and `"brookfield"` matches
no location of the table, so it does not return exactly one location
either. -/
theorem claim_C4_counterexample :
    oscarsSearchLocations "" none (.status 200 ⟨[]⟩) (.status 200 ⟨[]⟩) =
      .ok [] ∧
    oscarsSearchLocations "brookfield" none (.status 200 ⟨[]⟩)
      (.status 200 ⟨[]⟩) = .ok [] ∧
    oscarsKnownLocations.length = 3 := by
  exact ⟨rfl, rfl, rfl⟩

/-- C4 amended: Goodberry's — the pure fixed-table adapter — returns
its entire 9-location table for the empty search term and filters
case-insensitively across name/city/address for a non-empty one
(`"GARNER"` returns exactly the Garner location); Oscar's table
fallback filters only for a non-empty term (`"KIRKWOOD"` returns
exactly the Kirkwood location, the empty term returns the empty
list). -/
theorem claim_C4_amended_fixed_table_search :
    goodberrysSearchLocations "" none = goodberrysKnownLocations ∧
    goodberrysKnownLocations.length = 9 ∧
    (goodberrysSearchLocations "GARNER" none).map LocationInfo.store_id =
      ["goodberrys-garner"] ∧
    oscarsSearchLocations "" none (.status 200 ⟨[]⟩) (.status 200 ⟨[]⟩) =
      .ok [] ∧
    (oscarsSearchLocations "KIRKWOOD" none (.status 200 ⟨[]⟩)
      (.status 200 ⟨[]⟩)).map (List.map LocationInfo.store_id) =
      .ok ["oscars-kirkwood"] := by
  exact ⟨rfl, rfl, rfl, rfl, rfl⟩

/-! ### Claim C5: plausibility checks on extracted flavor names -/

/-- C5 counterexample: Goodberry's applies no validation to the
extracted heading text — `get_current_flavor` happily returns a name
that contains the word "flavor", and even the empty string. -/
theorem claim_C5_counterexample :
    outcomeName (goodberrysGetCurrentFlavor "goodberrys-garner"
        ⟨2025, 10, 12, 12, 0, 0, 0⟩
        (.status 200 ⟨some (some "Flavor of the Day Vanilla")⟩)) =
      some "Flavor of the Day Vanilla" ∧
    pyContains (pyLower "Flavor of the Day Vanilla") "flavor" = true ∧
    outcomeName (goodberrysGetCurrentFlavor "goodberrys-garner"
        ⟨2025, 10, 12, 12, 0, 0, 0⟩ (.status 200 ⟨some (some "")⟩)) =
      some "" := by
  exact ⟨rfl, rfl, rfl⟩

/-- C5 amended: the rejection policy is per-adapter, not universal.
Oscar's selector loop rejects empty, over-long and "flavor"-containing
text and its sibling loop rejects empty and over-long text, so every
`FlavorInfo` Oscar's returns has a non-empty name shorter than 100
characters; Goodberry's applies no such checks (see the
counterexample), and Kopp's heading loop does not reject
"flavor"-containing text. -/
theorem claim_C5_amended_oscars_name_bounds (locationId : String)
    (now : PyDateTime) (fetch : Fetch OscarsHomePage) (f : FlavorInfo)
    (h : oscarsGetCurrentFlavor locationId now fetch = .ok f) :
    f.name ≠ "" ∧ f.name.length < 100 := by
  have hb : oscarsGetCurrentFlavorBody locationId now fetch = .ok f := by
    unfold oscarsGetCurrentFlavor at h
    cases hb : oscarsGetCurrentFlavorBody locationId now fetch with
    | ok f' => rw [hb] at h; simpa using h
    | error e =>
      rw [hb] at h
      simp [oscarsGetFlavorFromSocialMedia] at h
  clear h
  cases fetch with
  | transportErr => simp [oscarsGetCurrentFlavorBody] at hb
  | status code page =>
    simp only [oscarsGetCurrentFlavorBody] at hb
    by_cases hc : code ≠ 200
    · rw [if_pos hc] at hb
      simp [oscarsGetFlavorFromSocialMedia] at hb
    · rw [if_neg hc] at hb
      cases h1 : page.selectorTexts.find?
          (fun t => t ≠ "" && t.length < 100 &&
            !pyContains (pyLower t) "flavor") with
      | some t =>
        rw [h1] at hb
        have hp := List.find?_some h1
        simp only [Bool.and_eq_true, decide_eq_true_eq] at hp
        have hf : f.name = t := by
          have := hb
          simp only [Except.ok.injEq] at this
          rw [← this]
        rw [hf]
        exact ⟨hp.1.1, hp.1.2⟩
      | none =>
        rw [h1] at hb
        cases h2 : page.siblingTexts.find?
            (fun t => t ≠ "" && t.length < 100) with
        | some t =>
          rw [h2] at hb
          have hp := List.find?_some h2
          simp only [Bool.and_eq_true, decide_eq_true_eq] at hp
          have hf : f.name = t := by
            have := hb
            simp only [Except.ok.injEq] at this
            rw [← this]
          rw [hf]
          exact ⟨hp.1, hp.2⟩
        | none =>
          rw [h2] at hb
          simp [oscarsGetFlavorFromSocialMedia] at hb

/-- Witness for the amended C5: a concrete page on which Oscar's
returns a flavor, whose name indeed satisfies the bounds. -/
theorem claim_C5_amended_oscars_name_bounds_witness :
    ("Vanilla" : String) ≠ "" ∧ ("Vanilla" : String).length < 100 :=
  claim_C5_amended_oscars_name_bounds "oscars-kirkwood"
    ⟨2025, 10, 12, 12, 0, 0, 0⟩ (.status 200 ⟨["Vanilla"], []⟩)
    { name := "Vanilla",
      available_date := some ⟨2025, 10, 12, 12, 0, 0, 0⟩ } (by rfl)

/-! ### Claim C10: `get_current_flavor` ignores the store id -/

/-- Kopp's body depends on the store id only through error messages. -/
theorem koppsBody_toOption (id1 id2 : String) (now : PyDateTime)
    (fetch : Fetch KoppsHomePage) :
    (koppsGetCurrentFlavorBody id1 now fetch).toOption =
      (koppsGetCurrentFlavorBody id2 now fetch).toOption := by
  cases fetch with
  | transportErr => rfl
  | status code page =>
    simp only [koppsGetCurrentFlavorBody]
    by_cases hc : code ≠ 200
    · simp [hc, Except.toOption]
    · simp only [hc, if_false]
      cases hs : page.todaysFlavorsSection with
      | none =>
        cases hf : page.flavorParentTexts.find?
            (fun t => t.length < 100 && !pyContains (pyLower t) "flavor") with
        | some t => simp [hs, hf, Except.toOption]
        | none => simp [hs, hf, Except.toOption]
      | some sec =>
        cases he : koppsExtractFlavorsFromSection now sec with
        | some f => simp [hs, he, Except.toOption]
        | none =>
          cases hf : page.flavorParentTexts.find?
              (fun t => t.length < 100 && !pyContains (pyLower t) "flavor") with
          | some t => simp [hs, he, hf, Except.toOption]
          | none => simp [hs, he, hf, Except.toOption]

/-- Goodberry's body depends on the store id only through error
messages. -/
theorem goodberrysBody_toOption (id1 id2 : String) (now : PyDateTime)
    (fetch : Fetch GoodberrysPage) :
    (goodberrysGetCurrentFlavorBody id1 now fetch).toOption =
      (goodberrysGetCurrentFlavorBody id2 now fetch).toOption := by
  cases fetch with
  | transportErr => rfl
  | status code page =>
    simp only [goodberrysGetCurrentFlavorBody]
    by_cases hc : code ≠ 200
    · simp [hc, Except.toOption]
    · simp only [hc, if_false]
      cases hft : page.fotdHeadingText with
      | none => simp [hft, Except.toOption]
      | some x =>
        cases x with
        | none => simp [hft, Except.toOption]
        | some t => simp [hft, Except.toOption]

/-- Oscar's body depends on the store id only through error messages. -/
theorem oscarsBody_toOption (id1 id2 : String) (now : PyDateTime)
    (fetch : Fetch OscarsHomePage) :
    (oscarsGetCurrentFlavorBody id1 now fetch).toOption =
      (oscarsGetCurrentFlavorBody id2 now fetch).toOption := by
  cases fetch with
  | transportErr => rfl
  | status code page =>
    simp only [oscarsGetCurrentFlavorBody]
    by_cases hc : code ≠ 200
    · simp [hc, oscarsGetFlavorFromSocialMedia, Except.toOption]
    · simp only [hc, if_false]
      cases h1 : page.selectorTexts.find?
          (fun t => t ≠ "" && t.length < 100 &&
            !pyContains (pyLower t) "flavor") with
      | some t => simp [h1, Except.toOption]
      | none =>
        cases h2 : page.siblingTexts.find?
            (fun t => t ≠ "" && t.length < 100) with
        | some t => simp [h1, h2, Except.toOption]
        | none =>
          simp [h1, h2, oscarsGetFlavorFromSocialMedia, Except.toOption]

/-- Leduc's body depends on the store id only through error messages. -/
theorem leducsBody_toOption (id1 id2 : String) (now : PyDateTime)
    (fetch : Fetch LeducsHomePage) :
    (leducsGetCurrentFlavorBody id1 now fetch).toOption =
      (leducsGetCurrentFlavorBody id2 now fetch).toOption := by
  cases fetch with
  | transportErr => rfl
  | status code page =>
    simp only [leducsGetCurrentFlavorBody]
    by_cases hc : code ≠ 200
    · simp [hc, Except.toOption]
    · simp only [hc, if_false]
      cases h0 : ((page.textNodes.filter
          (fun nd => pyContains nd.text (leducsDateStr now))).map
            (fun nd => nd.containerPieces.map pyStrip)).flatten.find?
          (fun t => t ≠ "" && !pyContains t (leducsDateStr now) &&
            t.length > 2 && t.length < 50) with
      | some t => simp [h0, Except.toOption]
      | none =>
        cases h1 : page.selectorTexts.find?
            (fun t => t ≠ "" && t.length < 100 &&
              !pyContains (pyLower t) "flavor") with
        | some t => simp [h0, h1, Except.toOption]
        | none =>
          cases h2 : page.keywordSiblingTexts.find?
              (fun t => t ≠ "" && t.length < 100 &&
                !pyContains (pyLower t) "flavor") with
          | some t => simp [h0, h1, h2, Except.toOption]
          | none => simp [h0, h1, h2, Except.toOption]

/-- C10: for the fixed-page adapters (Kopp's, Goodberry's, Leduc's,
Oscar's) the outcome of `get_current_flavor` does not depend on the
store id: for the same fetched page (and the same clock), two calls
with different ids return the same flavor name on success and fail with
the same exception class on failure; and no call ever raises
`LocationNotFoundError`. -/
theorem claim_C10_location_id_independent :
    (∀ (id1 id2 : String) (now : PyDateTime) (fetch : Fetch KoppsHomePage),
      outcomeName (koppsGetCurrentFlavor id1 now fetch) =
        outcomeName (koppsGetCurrentFlavor id2 now fetch) ∧
      outcomeErrCls (koppsGetCurrentFlavor id1 now fetch) =
        outcomeErrCls (koppsGetCurrentFlavor id2 now fetch)) ∧
    (∀ (id : String) (now : PyDateTime) (fetch : Fetch KoppsHomePage),
      outcomeErrCls (koppsGetCurrentFlavor id now fetch) ≠
        some .locationNotFoundError) ∧
    (∀ (id1 id2 : String) (now : PyDateTime) (fetch : Fetch GoodberrysPage),
      outcomeName (goodberrysGetCurrentFlavor id1 now fetch) =
        outcomeName (goodberrysGetCurrentFlavor id2 now fetch) ∧
      outcomeErrCls (goodberrysGetCurrentFlavor id1 now fetch) =
        outcomeErrCls (goodberrysGetCurrentFlavor id2 now fetch)) ∧
    (∀ (id : String) (now : PyDateTime) (fetch : Fetch GoodberrysPage),
      outcomeErrCls (goodberrysGetCurrentFlavor id now fetch) ≠
        some .locationNotFoundError) ∧
    (∀ (id1 id2 : String) (now : PyDateTime) (fetch : Fetch LeducsHomePage),
      outcomeName (leducsGetCurrentFlavor id1 now fetch) =
        outcomeName (leducsGetCurrentFlavor id2 now fetch) ∧
      outcomeErrCls (leducsGetCurrentFlavor id1 now fetch) =
        outcomeErrCls (leducsGetCurrentFlavor id2 now fetch)) ∧
    (∀ (id : String) (now : PyDateTime) (fetch : Fetch LeducsHomePage),
      outcomeErrCls (leducsGetCurrentFlavor id now fetch) ≠
        some .locationNotFoundError) ∧
    (∀ (id1 id2 : String) (now : PyDateTime) (fetch : Fetch OscarsHomePage),
      outcomeName (oscarsGetCurrentFlavor id1 now fetch) =
        outcomeName (oscarsGetCurrentFlavor id2 now fetch) ∧
      outcomeErrCls (oscarsGetCurrentFlavor id1 now fetch) =
        outcomeErrCls (oscarsGetCurrentFlavor id2 now fetch)) ∧
    (∀ (id : String) (now : PyDateTime) (fetch : Fetch OscarsHomePage),
      outcomeErrCls (oscarsGetCurrentFlavor id now fetch) ≠
        some .locationNotFoundError) := by
  refine ⟨?_, ?_, ?_, ?_, ?_, ?_, ?_, ?_⟩
  · intro id1 id2 now fetch
    have h := koppsBody_toOption id1 id2 now fetch
    unfold koppsGetCurrentFlavor
    cases h1 : koppsGetCurrentFlavorBody id1 now fetch with
    | ok f1 =>
      cases h2 : koppsGetCurrentFlavorBody id2 now fetch with
      | ok f2 =>
        rw [h1, h2] at h
        simp only [Except.toOption, Option.some.injEq] at h
        subst h
        exact ⟨rfl, rfl⟩
      | error e2 => rw [h1, h2] at h; simp [Except.toOption] at h
    | error e1 =>
      cases h2 : koppsGetCurrentFlavorBody id2 now fetch with
      | ok f2 => rw [h1, h2] at h; simp [Except.toOption] at h
      | error e2 => exact ⟨rfl, rfl⟩
  · intro id now fetch
    unfold koppsGetCurrentFlavor
    cases koppsGetCurrentFlavorBody id now fetch with
    | ok f => simp [outcomeErrCls]
    | error e => simp [outcomeErrCls]
  · intro id1 id2 now fetch
    have h := goodberrysBody_toOption id1 id2 now fetch
    unfold goodberrysGetCurrentFlavor
    cases h1 : goodberrysGetCurrentFlavorBody id1 now fetch with
    | ok f1 =>
      cases h2 : goodberrysGetCurrentFlavorBody id2 now fetch with
      | ok f2 =>
        rw [h1, h2] at h
        simp only [Except.toOption, Option.some.injEq] at h
        subst h
        exact ⟨rfl, rfl⟩
      | error e2 => rw [h1, h2] at h; simp [Except.toOption] at h
    | error e1 =>
      cases h2 : goodberrysGetCurrentFlavorBody id2 now fetch with
      | ok f2 => rw [h1, h2] at h; simp [Except.toOption] at h
      | error e2 => exact ⟨rfl, rfl⟩
  · intro id now fetch
    unfold goodberrysGetCurrentFlavor
    cases goodberrysGetCurrentFlavorBody id now fetch with
    | ok f => simp [outcomeErrCls]
    | error e => simp [outcomeErrCls]
  · intro id1 id2 now fetch
    have h := leducsBody_toOption id1 id2 now fetch
    unfold leducsGetCurrentFlavor
    cases h1 : leducsGetCurrentFlavorBody id1 now fetch with
    | ok f1 =>
      cases h2 : leducsGetCurrentFlavorBody id2 now fetch with
      | ok f2 =>
        rw [h1, h2] at h
        simp only [Except.toOption, Option.some.injEq] at h
        subst h
        exact ⟨rfl, rfl⟩
      | error e2 => rw [h1, h2] at h; simp [Except.toOption] at h
    | error e1 =>
      cases h2 : leducsGetCurrentFlavorBody id2 now fetch with
      | ok f2 => rw [h1, h2] at h; simp [Except.toOption] at h
      | error e2 => exact ⟨rfl, rfl⟩
  · intro id now fetch
    unfold leducsGetCurrentFlavor
    cases leducsGetCurrentFlavorBody id now fetch with
    | ok f => simp [outcomeErrCls]
    | error e => simp [outcomeErrCls]
  · intro id1 id2 now fetch
    have h := oscarsBody_toOption id1 id2 now fetch
    unfold oscarsGetCurrentFlavor
    cases h1 : oscarsGetCurrentFlavorBody id1 now fetch with
    | ok f1 =>
      cases h2 : oscarsGetCurrentFlavorBody id2 now fetch with
      | ok f2 =>
        rw [h1, h2] at h
        simp only [Except.toOption, Option.some.injEq] at h
        subst h
        exact ⟨rfl, rfl⟩
      | error e2 => rw [h1, h2] at h; simp [Except.toOption] at h
    | error e1 =>
      cases h2 : oscarsGetCurrentFlavorBody id2 now fetch with
      | ok f2 => rw [h1, h2] at h; simp [Except.toOption] at h
      | error e2 => exact ⟨rfl, rfl⟩
  · intro id now fetch
    unfold oscarsGetCurrentFlavor
    cases oscarsGetCurrentFlavorBody id now fetch with
    | ok f => simp [outcomeErrCls]
    | error e => simp [outcomeErrCls, oscarsGetFlavorFromSocialMedia]

end FlavorOfTheDay
